import Mathlib

/-!
Shallow embedding of the cloak selection-and-dispatch engine.

The definitions below are translated from the Rust sources:
  src/matcher.rs     -- Matcher, MatchResult, MatcherType, Matcher::matches
  src/filesystem.rs  -- ObjectType, object_type, matches_type, hide (unix/windows)
  src/filter.rs      -- file_type_matches, path_matches_pattern
  src/search.rs      -- per-entry pipeline of search
  src/watcher.rs     -- get_path, handle_event

External collaborators (globset, regex, std::fs, notify) are modelled at
their documented interfaces: a compiled glob set is its match function on
native paths, a compiled regex set is its match function on text, and
std::fs::metadata follows symbolic links before reporting a file type.
-/

namespace Cloak

/-- Model of an OS path as seen by the matcher: `text?` is the result of
`Path::to_str` (`some` exactly when the path is valid UTF-8) and
`lossyText` is the result of `Path::to_string_lossy` (equal to the valid
text when conversion is lossless). -/
structure OsPath where
  text? : Option String
  lossyText : String
deriving DecidableEq

/-- A compiled glob set (globset::GlobSet) is modelled by its match
function on native paths: `GlobSet::is_match(path)`. -/
structure GlobSet where
  is_match : OsPath → Bool

/-- A compiled regex set (regex::RegexSet) is modelled by its match
function on text: `RegexSet::is_match(str)`. -/
structure RegexSet where
  is_match : String → Bool

/-- MatcherType from src/matcher.rs. -/
inductive MatcherType where
  | Glob
  | Regex
deriving DecidableEq

/-- MatchResult from src/matcher.rs: the verdict, which matcher kind
decided, and the lossy rendering when the path was not valid UTF-8. -/
structure MatchResult where
  result : Bool
  matcher_type : Option MatcherType
  lossy : Option String
deriving DecidableEq

/-- Matcher from src/matcher.rs: four optional compiled rule collections. -/
structure Matcher where
  globs : Option GlobSet
  globs_exclude : Option GlobSet
  regexes : Option RegexSet
  regexes_exclude : Option RegexSet

/-- First component of the `(path_str, lossy)` pair computed at the top of
`Matcher::matches` by `path.to_str().map_or_else(...)`. -/
def pathStrOf (p : OsPath) : String :=
  match p.text? with
  | some s => s
  | none => p.lossyText

/-- Second component of the `(path_str, lossy)` pair: true exactly when
`Path::to_str` failed and the lossy conversion was used. -/
def isLossy (p : OsPath) : Bool :=
  p.text?.isNone

/-- The `lossy` field each return point of `Matcher::matches` builds:
`if lossy { Some(path_str) } else { None }`. -/
def lossyField (path_str : String) (lossy : Bool) : Option String :=
  if lossy then some path_str else none

/-- Encodes the `if let Some(gs) = ... { if gs.is_match(path) ... }`
pattern of `Matcher::matches` for a glob collection: fires only when the
collection is present and matches. -/
def globFires (g? : Option GlobSet) (p : OsPath) : Bool :=
  match g? with
  | some g => g.is_match p
  | none => false

/-- Same for a regex collection, which is evaluated on the rendered text. -/
def regexFires (r? : Option RegexSet) (s : String) : Bool :=
  match r? with
  | some r => r.is_match s
  | none => false

/-- Matcher::matches from src/matcher.rs lines 89-159: the all-absent
short-circuit, then exclude-glob, exclude-regex, include-glob,
include-regex in that order, falling through to a negative verdict. -/
def Matcher.matches (m : Matcher) (path : OsPath) : MatchResult :=
  if m.globs.isNone && m.globs_exclude.isNone
      && m.regexes.isNone && m.regexes_exclude.isNone then
    { result := true, matcher_type := none,
      lossy := lossyField (pathStrOf path) (isLossy path) }
  else if globFires m.globs_exclude path then
    { result := false, matcher_type := some MatcherType.Glob,
      lossy := lossyField (pathStrOf path) (isLossy path) }
  else if regexFires m.regexes_exclude (pathStrOf path) then
    { result := false, matcher_type := some MatcherType.Regex,
      lossy := lossyField (pathStrOf path) (isLossy path) }
  else if globFires m.globs path then
    { result := true, matcher_type := some MatcherType.Glob,
      lossy := lossyField (pathStrOf path) (isLossy path) }
  else if regexFires m.regexes (pathStrOf path) then
    { result := true, matcher_type := some MatcherType.Regex,
      lossy := lossyField (pathStrOf path) (isLossy path) }
  else
    { result := false, matcher_type := none,
      lossy := lossyField (pathStrOf path) (isLossy path) }

/-- ObjectType from src/filesystem.rs. -/
inductive ObjectType where
  | File
  | Folder
  | Symlink
  | Unknown
deriving DecidableEq

/-- What a path resolves to after following every symbolic link: the
possible final shapes std::fs reports (regular file, directory, or some
other object such as a socket or device). -/
inductive FinalKind where
  | file
  | dir
  | other
deriving DecidableEq

/-- The kind of directory entry actually sitting at a path, before any
link following: a regular file, a directory, a symbolic link (with the
final kind of its target, `none` for a dangling link), or another object. -/
inductive EntryKind where
  | file
  | dir
  | symlink (target : Option FinalKind)
  | other
deriving DecidableEq

/-- The three type predicates `is_file` / `is_dir` / `is_symlink` carried
by a std::fs::Metadata value. -/
structure Metadata where
  is_file : Bool
  is_dir : Bool
  is_symlink : Bool
deriving DecidableEq

/-- Documented behaviour of std::fs::metadata on an entry: the call
traverses symbolic links, so it errors on a dangling link and otherwise
describes the final target, whose metadata is never itself a symlink. -/
def entryMetadata : EntryKind → Option Metadata
  | EntryKind.file => some { is_file := true, is_dir := false, is_symlink := false }
  | EntryKind.dir => some { is_file := false, is_dir := true, is_symlink := false }
  | EntryKind.other => some { is_file := false, is_dir := false, is_symlink := false }
  | EntryKind.symlink none => none
  | EntryKind.symlink (some FinalKind.file) =>
      some { is_file := true, is_dir := false, is_symlink := false }
  | EntryKind.symlink (some FinalKind.dir) =>
      some { is_file := false, is_dir := true, is_symlink := false }
  | EntryKind.symlink (some FinalKind.other) =>
      some { is_file := false, is_dir := false, is_symlink := false }

/-- A snapshot of the filesystem as the type checks see it: the entry
sitting at each path, `none` when the path does not exist (a metadata
read error). -/
def Fs : Type := OsPath → Option EntryKind

/-- object_type from src/filesystem.rs lines 105-123: fetch metadata with
std::fs::metadata (an error becomes `none`), then test is_file, is_dir,
is_symlink in that order, falling back to Unknown. -/
def object_type (fs : Fs) (path : OsPath) : Option ObjectType :=
  match (fs path).bind entryMetadata with
  | none => none
  | some metadata =>
    some (if metadata.is_file then ObjectType.File
      else if metadata.is_dir then ObjectType.Folder
      else if metadata.is_symlink then ObjectType.Symlink
      else ObjectType.Unknown)

/-- matches_type from src/filesystem.rs lines 18-24: classify the path,
then test membership in the given type list; a classification error
propagates. -/
def matches_type (fs : Fs) (path : OsPath) (types : List ObjectType) : Option Bool :=
  (object_type fs path).map (fun object_type => types.any (fun t => t = object_type))

/-- file_type_matches from src/filter.rs lines 8-23: with no type list
every path passes; otherwise a classification error is printed and
treated as false (`unwrap_or(false)`), and the boolean answer is
returned unchanged. The verbose flag only affects printing. -/
def file_type_matches (fs : Fs) (path : OsPath) (types : Option (List ObjectType))
    (verbose : Bool) : Bool :=
  match types with
  | none => true
  | some types =>
    match matches_type fs path types with
    | some r => r
    | none => false

/-- path_matches_pattern from src/filter.rs lines 26-45: evaluate the
matcher and return the boolean verdict; the verbose flag only affects
printing of the lossy warning and the skip provenance. -/
def path_matches_pattern (path : OsPath) (matcher : Matcher) (verbose : Bool) : Bool :=
  (matcher.matches path).result

/-- The observable outcome of dispatching one traversal entry or one
normalized event path. -/
inductive Outcome where
  | walkError
  | skippedType
  | skippedPattern
  | wouldHide
  | hidden
  | hideFailed
deriving DecidableEq

/-- Per-entry decision sequence of the batch pipeline, src/search.rs
lines 51-63: filter by file_type_matches, then by path_matches_pattern,
then either report (test mode) or attempt the hide action, whose failure
is printed and absorbed (`unwrap_or_else`). `hideOk` records whether the
platform hide call on a path succeeds. -/
def searchStep (fs : Fs) (matcher : Matcher) (types : Option (List ObjectType))
    (test verbose : Bool) (hideOk : OsPath → Bool) (path : OsPath) : Outcome :=
  if !file_type_matches fs path types verbose then Outcome.skippedType
  else if !path_matches_pattern path matcher verbose then Outcome.skippedPattern
  else if test then Outcome.wouldHide
  else if hideOk path then Outcome.hidden
  else Outcome.hideFailed

/-- Per-path decision sequence of the watch-mode event handler,
src/watcher.rs lines 80-101: after normalization, return early unless
file_type_matches holds, return early unless path_matches_pattern holds,
then either report (test mode) or attempt the hide action, whose failure
is printed and absorbed. -/
def handleEventStep (fs : Fs) (matcher : Matcher) (types : Option (List ObjectType))
    (test verbose : Bool) (hideOk : OsPath → Bool) (path : OsPath) : Outcome :=
  if !file_type_matches fs path types verbose then Outcome.skippedType
  else if !path_matches_pattern path matcher verbose then Outcome.skippedPattern
  else if test then Outcome.wouldHide
  else if hideOk path then Outcome.hidden
  else Outcome.hideFailed

/-- The batch pipeline of src/search.rs lines 45-64 over the sequence of
walk results: an erroneous entry is printed and dropped by the
filter_map (recorded here as walkError), every other entry flows through
the per-entry decision sequence; one outcome per entry, in order. -/
def search_run (fs : Fs) (matcher : Matcher) (types : Option (List ObjectType))
    (test verbose : Bool) (hideOk : OsPath → Bool) :
    List (Except Unit OsPath) → List Outcome
  | [] => []
  | Except.error _ :: rest =>
    Outcome.walkError :: search_run fs matcher types test verbose hideOk rest
  | Except.ok path :: rest =>
    searchStep fs matcher types test verbose hideOk path
      :: search_run fs matcher types test verbose hideOk rest

/-- RenameMode of the notify crate. -/
inductive RenameMode where
  | Any
  | To
  | From
  | Both
  | Other
deriving DecidableEq

/-- ModifyKind of the notify crate. -/
inductive ModifyKind where
  | Any
  | Data
  | Metadata
  | Name (mode : RenameMode)
  | Other
deriving DecidableEq

/-- EventKind of the notify crate; the payloads of Create and Remove are
never inspected (`Create(_)`), so they are elided. -/
inductive EventKind where
  | Any
  | Access
  | Create
  | Modify (kind : ModifyKind)
  | Remove
  | Other
deriving DecidableEq

/-- A notify::Event: a kind plus its associated paths. -/
structure Event where
  kind : EventKind
  paths : List OsPath

/-- The `matches!(event.kind, EventKind::Create(_))` test of get_path. -/
def isCreate : EventKind → Bool
  | EventKind.Create => true
  | _ => false

/-- The `matches!(event.kind, Modify(ModifyKind::Name(_)))` test. -/
def isModifyName : EventKind → Bool
  | EventKind.Modify (ModifyKind.Name _) => true
  | _ => false

/-- The `matches!(event.kind, Modify(Name(RenameMode::From)))` test. -/
def isRenameFrom : EventKind → Bool
  | EventKind.Modify (ModifyKind.Name RenameMode.From) => true
  | _ => false

/-- The sole error get_path can report: the event should be handled but
carries no path. -/
inductive EventPathErr where
  | pathNotFound
deriving DecidableEq

/-- get_path from src/watcher.rs lines 105-130: a Create event yields its
first path (missing path reported as an error); a name-modification
event other than rename-from yields its second path, falling back to its
first (missing both reported as an error); every other event yields no
candidate. -/
def get_path (event : Event) : Option (Except EventPathErr OsPath) :=
  if isCreate event.kind then
    some (match event.paths.get? 0 with
      | some path => Except.ok path
      | none => Except.error EventPathErr.pathNotFound)
  else if isModifyName event.kind && !isRenameFrom event.kind then
    some (match (event.paths.get? 1).orElse (fun _ => event.paths.get? 0) with
      | some path => Except.ok path
      | none => Except.error EventPathErr.pathNotFound)
  else
    none

/-- A Unix path modelled as its list of components, each component a list
of bytes; `Path::file_name` is the last component and `Path::parent`
drops it. -/
structure UnixPath where
  comps : List (List Nat)
deriving DecidableEq

/-- Path::file_name: the final component, none for a component-free path
such as the filesystem root. -/
def UnixPath.file_name (p : UnixPath) : Option (List Nat) :=
  p.comps.getLast?

/-- Path::parent: the path without its final component, none when there
is no component to drop. -/
def UnixPath.parent (p : UnixPath) : Option UnixPath :=
  match p.comps with
  | [] => none
  | _ :: _ => some { comps := p.comps.dropLast }

/-- Path::join with a single file-name component. -/
def UnixPath.join (p : UnixPath) (name : List Nat) : UnixPath :=
  { comps := p.comps ++ [name] }

/-- Continuation-byte test for UTF-8 validation: bytes 0x80 to 0xBF. -/
def isUtf8Cont (b : Nat) : Bool :=
  128 ≤ b && b < 192

/-- Documented behaviour of OsStr::to_str on Unix: it succeeds exactly
when the underlying bytes are valid UTF-8. This is the standard UTF-8
well-formedness check, rejecting bad lead bytes, truncated sequences,
overlong encodings, surrogates and code points beyond U+10FFFF. -/
def isValidUtf8 : List Nat → Bool
  | [] => true
  | b :: rest =>
    if b < 128 then isValidUtf8 rest
    else if b < 194 then false
    else if b < 224 then
      match rest with
      | c1 :: rest2 => isUtf8Cont c1 && isValidUtf8 rest2
      | [] => false
    else if b = 224 then
      match rest with
      | c1 :: c2 :: rest2 => (160 ≤ c1 && c1 < 192) && isUtf8Cont c2 && isValidUtf8 rest2
      | _ => false
    else if b < 237 then
      match rest with
      | c1 :: c2 :: rest2 => isUtf8Cont c1 && isUtf8Cont c2 && isValidUtf8 rest2
      | _ => false
    else if b = 237 then
      match rest with
      | c1 :: c2 :: rest2 => (128 ≤ c1 && c1 < 160) && isUtf8Cont c2 && isValidUtf8 rest2
      | _ => false
    else if b < 240 then
      match rest with
      | c1 :: c2 :: rest2 => isUtf8Cont c1 && isUtf8Cont c2 && isValidUtf8 rest2
      | _ => false
    else if b = 240 then
      match rest with
      | c1 :: c2 :: c3 :: rest2 =>
        (144 ≤ c1 && c1 < 192) && isUtf8Cont c2 && isUtf8Cont c3 && isValidUtf8 rest2
      | _ => false
    else if b < 244 then
      match rest with
      | c1 :: c2 :: c3 :: rest2 =>
        isUtf8Cont c1 && isUtf8Cont c2 && isUtf8Cont c3 && isValidUtf8 rest2
      | _ => false
    else if b = 244 then
      match rest with
      | c1 :: c2 :: c3 :: rest2 =>
        (128 ≤ c1 && c1 < 144) && isUtf8Cont c2 && isUtf8Cont c3 && isValidUtf8 rest2
      | _ => false
    else false

/-- The errors the Unix hide function can report, one per `anyhow!` or
`with_context` site in src/filesystem.rs lines 68-100. -/
inductive HideErr where
  | noFileName
  | nameNotUtf8
  | noParent
  | renameFailed
deriving DecidableEq

/-- The set of paths present on the Unix filesystem, as the rename call
sees it. -/
def UnixFs : Type := List UnixPath

/-- std::fs::rename: fails when the source path does not exist, otherwise
removes the source and installs the destination. -/
def fsRename (fs : UnixFs) (src dst : UnixPath) : Except HideErr UnixFs :=
  if fs.contains src then
    Except.ok (dst :: fs.filter (fun q => !(q = src : Bool)))
  else
    Except.error HideErr.renameFailed

/-- hide (unix) from src/filesystem.rs lines 68-100: take the file name
(error when absent), convert it to a string (error when not valid
UTF-8), return success untouched when the name already starts with a
dot (byte 46), otherwise rename to the dot-prepended name inside the
parent directory (error when the parent is absent). For valid UTF-8 the
string tests `starts_with('.')` and `format!(".{name}")` act exactly on
the leading byte, so they are expressed on the bytes. -/
def hide_unix (fs : UnixFs) (path : UnixPath) : Except HideErr UnixFs :=
  match path.file_name with
  | none => Except.error HideErr.noFileName
  | some file_name =>
    if !isValidUtf8 file_name then Except.error HideErr.nameNotUtf8
    else if file_name.head? = some 46 then Except.ok fs
    else
      match path.parent with
      | none => Except.error HideErr.noParent
      | some parent => fsRename fs path (parent.join (46 :: file_name))

/-- Caller-side treatment of a hide failure (src/search.rs line 62,
src/watcher.rs line 99): the error is printed and absorbed, so the
filesystem the caller continues with is unchanged; the boolean records
whether an error was reported. -/
def runHideUnix (fs : UnixFs) (path : UnixPath) : UnixFs × Bool :=
  match hide_unix fs path with
  | Except.ok fs2 => (fs2, false)
  | Except.error _ => (fs, true)

/-- FILE_ATTRIBUTE_HIDDEN of the Windows API. -/
def FILE_ATTRIBUTE_HIDDEN : Nat := 2

/-- A Windows filesystem: an association list from path identifiers to
attribute words. -/
def WinFs : Type := List (Nat × Nat)

/-- GetFileAttributes via std::fs::metadata: the attribute word of an
existing path, none (an error) otherwise. -/
def winMetadata (fs : WinFs) (path : Nat) : Option Nat :=
  (fs.find? (fun e => e.1 = path)).map (fun e => e.2)

/-- SetFileAttributesW: overwrite the attribute word of a path. -/
def setFileAttributes (fs : WinFs) (path : Nat) (attrs : Nat) : WinFs :=
  fs.map (fun e => if e.1 = path then (e.1, attrs) else e)

/-- hide (windows) from src/filesystem.rs lines 28-64: read the current
attributes (error when metadata fails), return success untouched when
the hidden bit is already set, otherwise set the attributes with the
hidden bit added; `setOk` records whether the SetFileAttributesW call
itself succeeds (its failure is returned as an error). -/
def hide_windows (setOk : Bool) (fs : WinFs) (path : Nat) : Except HideErr WinFs :=
  match winMetadata fs path with
  | none => Except.error HideErr.noFileName
  | some attributes =>
    if Nat.land attributes FILE_ATTRIBUTE_HIDDEN = FILE_ATTRIBUTE_HIDDEN then
      Except.ok fs
    else if !setOk then Except.error HideErr.renameFailed
    else Except.ok (setFileAttributes fs path (Nat.lor attributes FILE_ATTRIBUTE_HIDDEN))

/-- A valid-UTF-8 sample path, rendered "file.txt". -/
def pFileTxt : OsPath := { text? := some ("file.txt"), lossyText := "file.txt" }

/-- A valid-UTF-8 sample path, rendered "a.txt". -/
def pAtxt : OsPath := { text? := some ("a.txt"), lossyText := "a.txt" }

/-- A valid-UTF-8 sample path, rendered "link". -/
def pLink : OsPath := { text? := some ("link"), lossyText := "link" }

/-- A compiled exclude-glob collection none of whose rules match the
sample path (for instance the single pattern *.log against file.txt). -/
def nonMatchingExcludeGlob : GlobSet := { is_match := fun _ => false }

/-- A compiled glob collection that matches every path (the pattern *). -/
def matchAllGlob : GlobSet := { is_match := fun _ => true }

/-- A filesystem whose every path holds a symbolic link pointing at a
directory. -/
def symlinkToDirFs : Fs := fun _ => some (EntryKind.symlink (some FinalKind.dir))

/-- A valid-UTF-8 sample path, rendered "/a/old". -/
def pOldName : OsPath := { text? := some ("/a/old"), lossyText := "/a/old" }

/-- A valid-UTF-8 sample path, rendered "/a/new". -/
def pNewName : OsPath := { text? := some ("/a/new"), lossyText := "/a/new" }

/-- A sample path that is not valid UTF-8; to_str fails and the lossy
rendering substitutes the replacement character. -/
def pRaw : OsPath := { text? := none, lossyText := "bad�name" }

/-- The byte list [46, 255]: a file name that starts with a dot but is
not valid UTF-8. -/
def hiddenRawName : List Nat := [46, 255]

/-- A one-component Unix path whose file name is hiddenRawName. -/
def hiddenRawPath : UnixPath := { comps := [hiddenRawName] }

/-- A one-component Unix path named .a (bytes [46, 97]): a hidden,
valid-UTF-8 entry. -/
def hiddenDotA : UnixPath := { comps := [[46, 97]] }

/-- A filesystem on which every metadata read fails. -/
def emptyFs : Fs := fun _ => none

/-- A glob collection that fires is necessarily present. -/
theorem globFires_isNone_false {g? : Option GlobSet} {p : OsPath}
    (h : globFires g? p = true) : g?.isNone = false := by
  cases g? <;> simp_all [globFires]

/-- A regex collection that fires is necessarily present. -/
theorem regexFires_isNone_false {r? : Option RegexSet} {s : String}
    (h : regexFires r? s = true) : r?.isNone = false := by
  cases r? <;> simp_all [regexFires]

/-- C6: a Matcher built with all four rule collections absent returns
result = true and matcher_type = None for every path. -/
theorem no_rules_matches_by_default (p : OsPath) :
    ((Matcher.mk none none none none).matches p).result = true ∧
    ((Matcher.mk none none none none).matches p).matcher_type = none := by
  simp [Matcher.matches]

/-- C1: evaluation of Matcher::matches at the failing input of the
accept-all-baseline claim. The matcher carries only an exclude-glob
collection and the path matches no exclude rule, yet the verdict is
result = false: control falls through every branch to the final
negative return instead of accepting by default. -/
theorem exclude_only_nonexcluded_path_rejected :
    ((Matcher.mk none (some nonMatchingExcludeGlob) none none).matches pFileTxt) =
      { result := false, matcher_type := none, lossy := none } := by
  rfl

/-- C2: the code classifies a symbolic link whose target is a directory
as Folder, not Symlink — std::fs::metadata follows the link, so the
is_symlink test can never succeed — and the Symlink type-acceptance
check therefore rejects it. -/
theorem symlink_to_dir_classified_folder :
    object_type symlinkToDirFs pLink = some ObjectType.Folder ∧
    matches_type symlinkToDirFs pLink [ObjectType.Symlink] = some false := by
  constructor <;> rfl

/-- C3: exclusion always wins and the evaluation order of
Matcher::matches is fixed. Whenever a supplied exclude collection (glob
or regex) matches, the verdict is result = false whatever the include
collections hold; and the branches decide in the order exclude-glob,
exclude-regex, include-glob, include-regex, each short-circuiting with
its own provenance. -/
theorem exclude_wins_with_fixed_order (m : Matcher) (p : OsPath) :
    ((globFires m.globs_exclude p = true ∨
        regexFires m.regexes_exclude (pathStrOf p) = true) →
      (m.matches p).result = false) ∧
    (globFires m.globs_exclude p = true →
      (m.matches p).matcher_type = some MatcherType.Glob) ∧
    (globFires m.globs_exclude p = false →
      regexFires m.regexes_exclude (pathStrOf p) = true →
      (m.matches p).matcher_type = some MatcherType.Regex) ∧
    (globFires m.globs_exclude p = false →
      regexFires m.regexes_exclude (pathStrOf p) = false →
      globFires m.globs p = true →
      (m.matches p).result = true ∧
        (m.matches p).matcher_type = some MatcherType.Glob) ∧
    (globFires m.globs_exclude p = false →
      regexFires m.regexes_exclude (pathStrOf p) = false →
      globFires m.globs p = false →
      regexFires m.regexes (pathStrOf p) = true →
      (m.matches p).result = true ∧
        (m.matches p).matcher_type = some MatcherType.Regex) := by
  refine ⟨?_, ?_, ?_, ?_, ?_⟩
  · rintro (h | h)
    · simp [Matcher.matches, globFires_isNone_false h, h]
    · rcases hg : globFires m.globs_exclude p <;>
        simp [Matcher.matches, regexFires_isNone_false h, h, hg]
  · intro h
    simp [Matcher.matches, globFires_isNone_false h, h]
  · intro hg h
    simp [Matcher.matches, regexFires_isNone_false h, h, hg]
  · intro hg hr h
    simp [Matcher.matches, globFires_isNone_false h, h, hg, hr]
  · intro hg hr hg2 h
    simp [Matcher.matches, regexFires_isNone_false h, h, hg, hr, hg2]

/-- C3 witness: a path matching both the include-glob and the
exclude-glob collection is rejected. -/
theorem exclude_wins_witness :
    ((Matcher.mk (some matchAllGlob) (some matchAllGlob) none none).matches pAtxt).result
      = false :=
  (exclude_wins_with_fixed_order (Matcher.mk (some matchAllGlob) (some matchAllGlob)
    none none) pAtxt).1 (Or.inl rfl)

/-- C4: event normalization. A Create event yields its first path and
reports an error when no path is attached; a name-modification event
other than rename-from yields its second path when present and its
first otherwise; a rename-from event and the remaining event kinds
(content modification, metadata-only change, removal) yield no
candidate. -/
theorem get_path_normalization :
    (∀ (e : Event) (p : OsPath) (ps : List OsPath),
      e.kind = EventKind.Create → e.paths = p :: ps →
      get_path e = some (Except.ok p)) ∧
    (∀ e : Event, e.kind = EventKind.Create → e.paths = [] →
      get_path e = some (Except.error EventPathErr.pathNotFound)) ∧
    (∀ (e : Event) (mode : RenameMode) (srcP dstP : OsPath) (rest : List OsPath),
      e.kind = EventKind.Modify (ModifyKind.Name mode) → mode ≠ RenameMode.From →
      e.paths = srcP :: dstP :: rest → get_path e = some (Except.ok dstP)) ∧
    (∀ (e : Event) (mode : RenameMode) (p : OsPath),
      e.kind = EventKind.Modify (ModifyKind.Name mode) → mode ≠ RenameMode.From →
      e.paths = [p] → get_path e = some (Except.ok p)) ∧
    (∀ e : Event, e.kind = EventKind.Modify (ModifyKind.Name RenameMode.From) →
      get_path e = none) ∧
    (∀ e : Event, e.kind = EventKind.Modify ModifyKind.Data ∨
      e.kind = EventKind.Modify ModifyKind.Metadata ∨ e.kind = EventKind.Remove →
      get_path e = none) := by
  refine ⟨?_, ?_, ?_, ?_, ?_, ?_⟩
  · intro e p ps h1 h2
    simp [get_path, isCreate, h1, h2]
  · intro e h1 h2
    simp [get_path, isCreate, h1, h2]
  · intro e mode srcP dstP rest h1 h2 h3
    cases mode <;>
      simp_all [get_path, isCreate, isModifyName, isRenameFrom]
  · intro e mode p h1 h2 h3
    cases mode <;>
      simp_all [get_path, isCreate, isModifyName, isRenameFrom]
  · intro e h1
    simp [get_path, isCreate, isModifyName, isRenameFrom, h1]
  · intro e h1
    rcases h1 with h1 | h1 | h1 <;>
      simp [get_path, isCreate, isModifyName, isRenameFrom, h1]

/-- C4 witness: a combined rename event from /a/old to /a/new yields the
destination /a/new. -/
theorem get_path_normalization_witness :
    get_path { kind := EventKind.Modify (ModifyKind.Name RenameMode.Both),
               paths := [pOldName, pNewName] } = some (Except.ok pNewName) :=
  get_path_normalization.2.2.1
    { kind := EventKind.Modify (ModifyKind.Name RenameMode.Both),
      paths := [pOldName, pNewName] }
    RenameMode.Both pOldName pNewName [] rfl (by decide) rfl

/-- C5: the per-path decision sequence of the batch pipeline and of the
watch-mode event handler coincide on every input: same filter calls in
the same order, same action on a positive verdict. -/
theorem batch_and_watch_dispatch_agree (fs : Fs) (matcher : Matcher)
    (types : Option (List ObjectType)) (test verbose : Bool)
    (hideOk : OsPath → Bool) (path : OsPath) :
    searchStep fs matcher types test verbose hideOk path =
      handleEventStep fs matcher types test verbose hideOk path := rfl

/-- Every return point of Matcher::matches carries the same lossy field,
computed once at the top of the function. -/
theorem matches_lossy_eq (m : Matcher) (p : OsPath) :
    (m.matches p).lossy = lossyField (pathStrOf p) (isLossy p) := by
  unfold Matcher.matches
  repeat first
    | rfl
    | split

/-- C7: a path that is not valid UTF-8 is still evaluated and every
verdict it produces carries the lossy rendering; in particular, with an
include-glob collection supplied (and no exclude collections) whose
rules match the path, the verdict is result = true with provenance Glob
and the lossy field populated. -/
theorem lossy_path_still_evaluated (m : Matcher) (p : OsPath)
    (h : p.text? = none) :
    ((m.matches p).lossy = some p.lossyText) ∧
    (∀ g : GlobSet, m.globs = some g → g.is_match p = true →
      m.globs_exclude = none → m.regexes_exclude = none →
      (m.matches p).result = true ∧
        (m.matches p).matcher_type = some MatcherType.Glob) := by
  constructor
  · rw [matches_lossy_eq]
    simp [lossyField, pathStrOf, isLossy, h]
  · intro g hg hfire hge hre
    simp [Matcher.matches, hg, hge, hre, globFires, regexFires, hfire]

/-- C7 witness: the concrete non-UTF-8 path evaluated against a matcher
holding one all-matching include-glob collection. -/
theorem lossy_path_still_evaluated_witness :
    ((Matcher.mk (some matchAllGlob) none none none).matches pRaw).lossy
        = some pRaw.lossyText ∧
    ((Matcher.mk (some matchAllGlob) none none none).matches pRaw).result = true :=
  ⟨(lossy_path_still_evaluated (Matcher.mk (some matchAllGlob) none none none)
      pRaw rfl).1,
    ((lossy_path_still_evaluated (Matcher.mk (some matchAllGlob) none none none)
      pRaw rfl).2 matchAllGlob rfl rfl rfl rfl).1⟩

/-- C8 counterexample: a Unix entry whose file name starts with the dot
byte — so the entry is already hidden — but is not valid UTF-8 (bytes
[46, 255]). The claim says hide succeeds with no error on such an
already-hidden path; the code instead fails the to_str conversion and
returns an error before ever reaching the starts-with-dot check. -/
theorem hide_on_hidden_nonutf8_errors :
    hiddenRawName.head? = some 46 ∧
    isValidUtf8 hiddenRawName = false ∧
    hide_unix [hiddenRawPath] hiddenRawPath = Except.error HideErr.nameNotUtf8 := by
  refine ⟨by decide, by decide, by rfl⟩

/-- C8 (amended): the hide action is idempotent on already-hidden
entries whose name conversion succeeds. On Unix, for a path whose file
name is valid UTF-8 and starts with a dot, hide returns success with
the filesystem untouched, so a second invocation returns the same state
with no error; on Windows, for a path whose hidden attribute bit is
already set, likewise. -/
theorem hide_idempotent_on_hidden :
    (∀ (fs : UnixFs) (p : UnixPath) (name : List Nat),
      p.file_name = some name → isValidUtf8 name = true → name.head? = some 46 →
      hide_unix fs p = Except.ok fs ∧
        (hide_unix fs p).bind (fun fs2 => hide_unix fs2 p) = hide_unix fs p) ∧
    (∀ (setOk : Bool) (fs : WinFs) (q a : Nat),
      winMetadata fs q = some a →
      Nat.land a FILE_ATTRIBUTE_HIDDEN = FILE_ATTRIBUTE_HIDDEN →
      hide_windows setOk fs q = Except.ok fs ∧
        (hide_windows setOk fs q).bind (fun fs2 => hide_windows setOk fs2 q) =
          hide_windows setOk fs q) := by
  constructor
  · intro fs p name h1 h2 h3
    have heq : hide_unix fs p = Except.ok fs := by
      simp [hide_unix, h1, h2, h3]
    exact ⟨heq, by rw [heq]; simpa [Except.bind] using heq⟩
  · intro setOk fs q a h1 h2
    have heq : hide_windows setOk fs q = Except.ok fs := by
      simp [hide_windows, h1, h2]
    exact ⟨heq, by rw [heq]; simpa [Except.bind] using heq⟩

/-- C8 witness: hiding the already-hidden Unix entry .a leaves the
filesystem unchanged with no error. -/
theorem hide_idempotent_on_hidden_witness :
    hide_unix [hiddenDotA] hiddenDotA = Except.ok [hiddenDotA] :=
  (hide_idempotent_on_hidden.1 [hiddenDotA] hiddenDotA [46, 97]
    (by decide) (by decide) (by decide)).1

/-- C9: per-entry failures never abort the batch run. A metadata read
error during the type check makes file_type_matches answer false (the
entry is skipped, never a fatal abort); the pipeline is a homomorphism
over the entry sequence, so every entry — walk errors and failed hide
actions included — is followed by the processing of all remaining
entries; and every entry yields exactly one outcome, so the run always
returns a full outcome list and never an error. -/
theorem per_entry_errors_are_nonfatal :
    (∀ (fs : Fs) (p : OsPath) (ts : List ObjectType) (verbose : Bool),
      object_type fs p = none → file_type_matches fs p (some ts) verbose = false) ∧
    (∀ (fs : Fs) (matcher : Matcher) (types : Option (List ObjectType))
        (test verbose : Bool) (hideOk : OsPath → Bool)
        (xs ys : List (Except Unit OsPath)),
      search_run fs matcher types test verbose hideOk (xs ++ ys) =
        search_run fs matcher types test verbose hideOk xs ++
          search_run fs matcher types test verbose hideOk ys) ∧
    (∀ (fs : Fs) (matcher : Matcher) (types : Option (List ObjectType))
        (test verbose : Bool) (hideOk : OsPath → Bool)
        (entries : List (Except Unit OsPath)),
      (search_run fs matcher types test verbose hideOk entries).length =
        entries.length) := by
  refine ⟨?_, ?_, ?_⟩
  · intro fs p ts verbose h
    simp [file_type_matches, matches_type, h]
  · intro fs matcher types test verbose hideOk xs ys
    induction xs with
    | nil => rfl
    | cons e rest ih =>
      cases e <;> simp [search_run, ih]
  · intro fs matcher types test verbose hideOk entries
    induction entries with
    | nil => rfl
    | cons e rest ih =>
      cases e <;> simp [search_run, ih]

/-- C9 witness: on a filesystem where metadata reads fail everywhere, a
path checked against the File type is treated as not matching. -/
theorem per_entry_errors_are_nonfatal_witness :
    file_type_matches emptyFs pFileTxt (some [ObjectType.File]) false = false :=
  per_entry_errors_are_nonfatal.1 emptyFs pFileTxt [ObjectType.File] false rfl

/-- C10: on Unix the hide operation fails, and the caller's filesystem
state is unchanged with the error reported, both for a path with no
file name component (such as the filesystem root) and for a path whose
file name is not valid UTF-8. -/
theorem unix_hide_rejects_rootlike_and_nonutf8 :
    (∀ (fs : UnixFs) (p : UnixPath), p.file_name = none →
      hide_unix fs p = Except.error HideErr.noFileName ∧
        runHideUnix fs p = (fs, true)) ∧
    (∀ (fs : UnixFs) (p : UnixPath) (name : List Nat),
      p.file_name = some name → isValidUtf8 name = false →
      hide_unix fs p = Except.error HideErr.nameNotUtf8 ∧
        runHideUnix fs p = (fs, true)) := by
  constructor
  · intro fs p h
    have heq : hide_unix fs p = Except.error HideErr.noFileName := by
      simp [hide_unix, h]
    exact ⟨heq, by simp [runHideUnix, heq]⟩
  · intro fs p name h1 h2
    have heq : hide_unix fs p = Except.error HideErr.nameNotUtf8 := by
      simp [hide_unix, h1, h2]
    exact ⟨heq, by simp [runHideUnix, heq]⟩

/-- C10 witness: hiding the filesystem root (no file name component)
reports an error and leaves the filesystem unchanged. -/
theorem unix_hide_rejects_witness :
    runHideUnix [] { comps := [] } = ([], true) :=
  (unix_hide_rejects_rootlike_and_nonutf8.1 [] { comps := [] } rfl).2

end Cloak
